import Mathlib

/-!
A shallow embedding of the portfolio's tour orchestration state machine
(`tour.ts`, cross-page-chaining variant) and of the sound manager's ambient
scheduling.  Browser effects (collaborator calls, sounds, page navigation)
are recorded as explicit effect values; `localStorage` is an association
list behind an availability flag (unavailable storage models the thrown
exception that every accessor catches); timers are explicit handles.  A JS
runtime exception (indexing past the end of the step list) is modelled by
`Option`: `none` is a thrown `TypeError`.
-/

-- ===== Tour script data model =====

inductive Animation
  | idle
  | waving
  | typing
  | pointing
  | celebrating
deriving DecidableEq, Repr

structure TourStep where
  id : String
  target : Option String
  animation : Animation
  message : String
  welcomeMode : Bool := false
  navigateTo : Option String := none
  page : Option String := none
deriving DecidableEq, Repr

-- Constants of tour.ts
def STORAGE_KEY : String := "portfolio_tour_v1"

def TOUR_STEP_KEY : String := "portfolio_tour_step"

def TOUR_ACTIVE_KEY : String := "portfolio_tour_active"

def TYPING_SPEED : Nat := 25

def HOME_PATH : String := "/"

def TOUR_PARAM : String := "start-tour"

-- The per-page tour scripts (the `pageTours` record literal).
def homeTour : List TourStep := [
  { id := "welcome", target := none, animation := .waving,
    message := "Meow! I'm Neko, your guide on this homepage. Let me show you around!",
    welcomeMode := true, page := some "/" },
  { id := "ascii-art", target := some "[data-tour-id=\"ascii-art\"]", animation := .pointing,
    message := "This is Ade's digital signature. Pretty cool ASCII art, right?",
    page := some "/" },
  { id := "intro-terminal", target := some "[data-tour-id=\"intro-terminal\"]", animation := .typing,
    message := "Here's the quick intro - a fullstack engineer with 5+ years of experience!",
    page := some "/" },
  { id := "nav-cards", target := some "[data-tour-id=\"nav-cards\"]", animation := .pointing,
    message := "These cards are shortcuts to explore different sections.",
    page := some "/" },
  { id := "matrix-toggle", target := some "#matrix-toggle", animation := .pointing,
    message := "Psst... try this button for a cool Matrix rain effect!",
    page := some "/" },
  { id := "complete", target := none, animation := .celebrating,
    message := "That's my tour! Click Next to meet Mochi on the About page!",
    welcomeMode := true, page := some "/", navigateTo := some "/about" }]

def aboutTour : List TourStep := [
  { id := "welcome", target := none, animation := .waving,
    message := "Hey there! I'm Mochi, the orange cat! Neko sent you? Let me tell you about Ade!",
    welcomeMode := true, page := some "/about" },
  { id := "bio", target := some "[data-tour-id=\"page-content\"] .terminal-window", animation := .typing,
    message := "Here's the bio - a self-taught fullstack engineer who's been coding for 5+ years!",
    page := some "/about" },
  { id := "stats", target := some "[data-tour-id=\"page-content\"] .grid", animation := .pointing,
    message := "5+ years, 5 companies, 15+ technologies, 5 industries - impressive numbers!",
    page := some "/about" },
  { id := "complete", target := none, animation := .celebrating,
    message := "That's all about Ade! Click Next to meet Yuki on the Skills page!",
    welcomeMode := true, page := some "/about", navigateTo := some "/skills" }]

def skillsTour : List TourStep := [
  { id := "welcome", target := none, animation := .waving,
    message := "Purr! I'm Yuki, the white cat! Mochi told me you're coming! Let me show you Ade's skills!",
    welcomeMode := true, page := some "/skills" },
  { id := "skills-list", target := some "[data-tour-id=\"page-content\"]", animation := .typing,
    message := "Frontend, Backend, Database, DevOps - full stack expertise with beautiful progress bars!",
    page := some "/skills" },
  { id := "complete", target := none, animation := .celebrating,
    message := "So many skills! Click Next to meet Shadow on the Projects page!",
    welcomeMode := true, page := some "/skills", navigateTo := some "/projects" }]

def projectsTour : List TourStep := [
  { id := "welcome", target := none, animation := .waving,
    message := "*emerges from shadows* I'm Shadow. Yuki mentioned you... Let me show you the projects.",
    welcomeMode := true, page := some "/projects" },
  { id := "projects-list", target := some "[data-tour-id=\"page-content\"]", animation := .pointing,
    message := "Healthcare, Fintech, Banking, Education, Gaming - diverse industries, real impact.",
    page := some "/projects" },
  { id := "complete", target := none, animation := .celebrating,
    message := "Impressive work... Click Next to meet Patches on the Experience page...",
    welcomeMode := true, page := some "/projects", navigateTo := some "/experience" }]

def experienceTour : List TourStep := [
  { id := "welcome", target := none, animation := .waving,
    message := "Meow meow! I'm Patches the calico! Shadow said you're on a tour! Let's see the career journey!",
    welcomeMode := true, page := some "/experience" },
  { id := "timeline", target := some "[data-tour-id=\"page-content\"]", animation := .typing,
    message := "5 companies, 5+ years of growth - from junior developer to leading teams!",
    page := some "/experience" },
  { id := "complete", target := none, animation := .celebrating,
    message := "What a journey! Click Next to meet Splash on the Contact page!",
    welcomeMode := true, page := some "/experience", navigateTo := some "/contact" }]

def contactTour : List TourStep := [
  { id := "welcome", target := none, animation := .waving,
    message := "Splashy hello! I'm Splash! Patches told me you've met everyone! Ready to connect with Ade?",
    welcomeMode := true, page := some "/contact" },
  { id := "contact-info", target := some "[data-tour-id=\"page-content\"]", animation := .pointing,
    message := "Email, WhatsApp, LinkedIn, GitHub - so many ways to reach out!",
    page := some "/contact" },
  { id := "complete", target := none, animation := .celebrating,
    message := "Almost done! Click Next to meet Pixel on the Blog page!",
    welcomeMode := true, page := some "/contact", navigateTo := some "/blog" }]

def blogTour : List TourStep := [
  { id := "welcome", target := none, animation := .waving,
    message := "Nyaa~! I'm Pixel, the last cat! You've met everyone! Welcome to the blog!",
    welcomeMode := true, page := some "/blog" },
  { id := "blog-posts", target := some "[data-tour-id=\"page-content\"]", animation := .typing,
    message := "Here you'll find technical articles, tutorials, and dev stories!",
    page := some "/blog" },
  { id := "complete", target := none, animation := .celebrating,
    message := "Tour complete! You've met all 7 cats! Feel free to explore anytime! 🐱",
    welcomeMode := true, page := some "/blog" }]

-- The keys of the `pageTours` record, in declaration order.
def pageToursList : List (String × List TourStep) := [
  ("/", homeTour),
  ("/about", aboutTour),
  ("/skills", skillsTour),
  ("/projects", projectsTour),
  ("/experience", experienceTour),
  ("/contact", contactTour),
  ("/blog", blogTour)]

-- `pageTours[page]` (JS record indexing: `undefined` is `none`)
def pageTours (page : String) : Option (List TourStep) :=
  (pageToursList.find? (fun kv => kv.1 == page)).map Prod.snd

-- `pageTours[page] || pageTours['/']`
def getTourStepsForPage (page : String) : List TourStep :=
  match pageTours page with
  | some steps => steps
  | none => homeTour

-- ===== Persistence adapter (localStorage) =====

/-- `localStorage` as a string key-value store.  `available = false` models a
storage whose operations throw (privacy mode, quota): every caller in the
source wraps its access in try/catch, so a read degrades to `none` and a
write to a no-op. -/
structure Storage where
  available : Bool
  items : List (String × String)
deriving DecidableEq, Repr

def Storage.getItem (st : Storage) (k : String) : Option String :=
  if st.available then (st.items.find? (fun kv => kv.1 == k)).map Prod.snd else none

def Storage.setItem (st : Storage) (k v : String) : Storage :=
  if st.available then
    { st with items := (k, v) :: st.items.filter (fun kv => !(kv.1 == k)) }
  else st

def Storage.removeItem (st : Storage) (k : String) : Storage :=
  if st.available then
    { st with items := st.items.filter (fun kv => !(kv.1 == k)) }
  else st

-- hasCompletedTour(): localStorage.getItem(STORAGE_KEY) === 'true' (catch: false)
def hasCompletedTour (st : Storage) : Bool :=
  st.getItem STORAGE_KEY == some "true"

-- markTourCompleted(): localStorage.setItem(STORAGE_KEY, 'true')
def markTourCompleted (st : Storage) : Storage :=
  st.setItem STORAGE_KEY "true"

-- clearTourCompletion(): localStorage.removeItem(STORAGE_KEY)
def clearTourCompletion (st : Storage) : Storage :=
  st.removeItem STORAGE_KEY

-- setTourActive(active)
def setTourActive (st : Storage) (active : Bool) : Storage :=
  if active then st.setItem TOUR_ACTIVE_KEY "true"
  else st.removeItem TOUR_ACTIVE_KEY

-- isTourActive(): localStorage.getItem(TOUR_ACTIVE_KEY) === 'true' (catch: false)
def isTourActive (st : Storage) : Bool :=
  st.getItem TOUR_ACTIVE_KEY == some "true"

-- saveTourStep(step): localStorage.setItem(TOUR_STEP_KEY, String(step))
def saveTourStep (st : Storage) (step : Nat) : Storage :=
  st.setItem TOUR_STEP_KEY (toString step)

-- clearSavedTourStep(): localStorage.removeItem(TOUR_STEP_KEY)
def clearSavedTourStep (st : Storage) : Storage :=
  st.removeItem TOUR_STEP_KEY

-- ===== URL model =====

/-- A browser URL: pathname, ordered query parameters, optional fragment. -/
structure Url where
  pathname : String
  search : List (String × String)
  fragment : Option String
deriving DecidableEq, Repr

-- isHomePage(): pathname === '/' || pathname === '/index.html'
def isHomePage (pathname : String) : Bool :=
  pathname == HOME_PATH || pathname == "/index.html"

-- getCurrentPage(): strip one trailing slash except on the root.
-- `path.endsWith('/')` for the one-character suffix is `data.getLast? = '/'`;
-- `path.slice(0, -1)` is dropping the last character.
def getCurrentPage (path : String) : String :=
  if path.data.getLast? = some '/' ∧ path ≠ "/" then String.mk path.data.dropLast
  else path

-- shouldStartFromUrl(): new URLSearchParams(search).has(TOUR_PARAM)
def shouldStartFromUrl (u : Url) : Bool :=
  u.search.any (fun p => p.1 == TOUR_PARAM)

-- url.searchParams.delete(k): every pair under key k is removed.
def searchParamsDelete (ps : List (String × String)) (k : String) : List (String × String) :=
  ps.filter (fun p => !(p.1 == k))

/-- clearTourParam(): builds `new URL(location.href)`, deletes the tour
parameter, then calls `history.replaceState({}, '', url.pathname)`.
`replaceState` swaps the visible URL in place without reloading the page, and
since only `url.pathname` is passed, the displayed URL becomes the bare
pathname: no query string (the deletion of the tour parameter is thereby
moot) and no fragment. -/
def clearTourParam (u : Url) : Url :=
  let u1 : Url := { u with search := searchParamsDelete u.search TOUR_PARAM }
  { pathname := u1.pathname, search := [], fragment := none }

-- ===== Orchestrator state machine =====

/-- Which window collaborators are mounted (`window.catGuide` etc.); these
globals are fixed for the lifetime of a page. -/
structure Env where
  catGuide : Bool
  speechBubble : Bool
  tourSpotlight : Bool
  soundManager : Bool
deriving DecidableEq, Repr

/-- A call the orchestrator makes into a collaborator, the sound manager, or
the browser (page navigation). -/
inductive Effect
  | setAnimation (a : Animation)
  | catShow
  | spotlightSetWelcomeMode (b : Bool)
  | spotlightShow (welcome : Bool)
  | spotlightHighlight (target : Option String)
  | spotlightHide
  | bubbleSetStep (current total : Nat)
  | bubbleShow (welcome : Bool)
  | bubbleTypeMessage (msg : String) (speed : Nat)
  | bubbleSkipTyping (msg : String)
  | bubbleHide
  | soundInit
  | playMeow
  | playPurr
  | playSuccess
  | startAmbient
  | navigate (url : String)
deriving DecidableEq, Repr

/-- The module state: the mutable `state` record, the loaded `tourSteps`,
the page's pathname and the persistent storage. -/
structure Sys where
  currentStep : Nat
  isActive : Bool
  isTyping : Bool
  hasCompleted : Bool
  tourSteps : List TourStep
  pathname : String
  storage : Storage
deriving DecidableEq, Repr

-- loadTourForCurrentPage()
def loadTourForCurrentPage (s : Sys) : Sys :=
  { s with tourSteps := getTourStepsForPage (getCurrentPage s.pathname) }

/-- renderStep(): pushes the step's animation, overlay mode and bubble
content.  The character-by-character reveal is the one suspension point of
the system: when the speech bubble is mounted the function sets
`isTyping := true`, dispatches `typeMessage` and suspends awaiting it; the
state this returns is the state at that suspension point (`typingDone`
below models the reveal resolving).  `none` models the `TypeError` JS would
throw on `tourSteps[currentStep]` being `undefined`. -/
def renderStep (e : Env) (s : Sys) : Option (Sys × List Effect) :=
  match s.tourSteps.get? s.currentStep with
  | none => none
  | some step =>
    let catEffs := if e.catGuide then [Effect.setAnimation step.animation] else []
    let purrEffs := if step.animation = Animation.celebrating ∧ e.soundManager
      then [Effect.playPurr] else []
    let spotEffs := if e.tourSpotlight then
        if step.welcomeMode then
          [Effect.spotlightSetWelcomeMode true, Effect.spotlightShow true]
        else
          [Effect.spotlightSetWelcomeMode false, Effect.spotlightShow false,
           Effect.spotlightHighlight step.target]
      else []
    let bubbleEffs := if e.speechBubble then
        [Effect.bubbleSetStep (s.currentStep + 1) s.tourSteps.length,
         Effect.bubbleShow step.welcomeMode,
         Effect.bubbleTypeMessage step.message TYPING_SPEED]
      else []
    let s1 := if e.speechBubble then { s with isTyping := true } else s
    some (s1, catEffs ++ purrEffs ++ spotEffs ++ bubbleEffs)

/-- The pending `typeMessage` reveal resolving: the `await` in renderStep()
resumes and runs `state.isTyping = false`. -/
def typingDone (s : Sys) : Sys :=
  { s with isTyping := false }

/-- completeTour(): deactivate, persist completion, clear resume state and
the cross-page-active flag, success cue, hide collaborators, idle mascot. -/
def completeTour (e : Env) (s : Sys) : Sys × List Effect :=
  let s1 := { s with
    isActive := false
    hasCompleted := true
    storage := setTourActive (clearSavedTourStep (markTourCompleted s.storage)) false }
  let effs :=
    (if e.soundManager then [Effect.playSuccess] else []) ++
    (if e.tourSpotlight then [Effect.spotlightHide] else []) ++
    (if e.speechBubble then [Effect.bubbleHide] else []) ++
    (if e.catGuide then [Effect.setAnimation Animation.idle] else [])
  (s1, effs)

/-- nextStep(): advance().  The `state.currentStep < tourSteps.length - 1`
comparison is JS number arithmetic, hence taken over ℤ. -/
def nextStep (e : Env) (s : Sys) : Option (Sys × List Effect) :=
  if s.isActive = false then some (s, [])
  else if s.isTyping ∧ e.speechBubble then
    match s.tourSteps.get? s.currentStep with
    | none => none
    | some step => some ({ s with isTyping := false }, [Effect.bubbleSkipTyping step.message])
  else if (s.currentStep : Int) < (s.tourSteps.length : Int) - 1 then
    let s1 := { s with currentStep := s.currentStep + 1 }
    let meowEffs := if e.soundManager ∧ s1.currentStep % 2 = 0 then [Effect.playMeow] else []
    match renderStep e s1 with
    | none => none
    | some (s2, effs) => some (s2, meowEffs ++ effs)
  else
    match s.tourSteps.get? s.currentStep with
    | none => none
    | some step =>
      match step.navigateTo with
      | some url => some ({ s with storage := setTourActive s.storage true }, [Effect.navigate url])
      | none => some (completeTour e s)

-- skipTour(): setTourActive(false) then completeTour()
def skipTour (e : Env) (s : Sys) : Sys × List Effect :=
  completeTour e { s with storage := setTourActive s.storage false }

-- prevStep(): retreat()
def prevStep (e : Env) (s : Sys) : Option (Sys × List Effect) :=
  if s.isActive = false then some (s, [])
  else if s.currentStep > 0 then
    renderStep e { s with currentStep := s.currentStep - 1 }
  else some (s, [])

-- startTour()
def startTour (e : Env) (s : Sys) : Option (Sys × List Effect) :=
  let soundEffs := if e.soundManager
    then [Effect.soundInit, Effect.playMeow, Effect.startAmbient] else []
  let s1 := loadTourForCurrentPage s
  let s2 := { s1 with
    currentStep := 0
    isActive := true
    hasCompleted := false
    storage := setTourActive s1.storage true }
  let catEffs := if e.catGuide then [Effect.catShow] else []
  match renderStep e s2 with
  | none => none
  | some (s3, effs) => some (s3, soundEffs ++ catEffs ++ effs)

-- restartTour()
def restartTour (e : Env) (s : Sys) : Option (Sys × List Effect) :=
  startTour e s

/-- The four mutually exclusive branches of initTour()'s deferred body:
auto-resume from the cross-page-active flag, start from the URL marker,
first-visit auto-start on the home page, or idle mascot only. -/
inductive InitBranch
  | autoResume
  | urlStart
  | firstVisit
  | idleShow
deriving DecidableEq, Repr

/-- Which branch initTour() takes, read off its guard cascade. -/
def initBranch (st : Storage) (u : Url) : InitBranch :=
  if isTourActive st then InitBranch.autoResume
  else if shouldStartFromUrl u then InitBranch.urlStart
  else if isHomePage u.pathname ∧ ¬ hasCompletedTour st then InitBranch.firstVisit
  else InitBranch.idleShow

-- ===== Sound manager (ambient purr scheduling) =====

/-- An audible emission of the sound manager. -/
inductive Sound
  | keyClick
  | meow
  | purr
  | success
deriving DecidableEq, Repr

/-- The sound manager's state.  `audioContext` records whether an
AudioContext was constructed; `purrInterval` is the handle the ambient
chain last stored; `pendingTimeouts` are the timer handles currently
scheduled and not yet fired or cleared, `nextTimeoutId` supplies fresh
handles (browser timer handles are positive and never reused, so the
source's truthiness test on `purrInterval` is `isSome` here). -/
structure SoundState where
  audioContext : Bool
  isEnabled : Bool
  volume : ℚ
  purrInterval : Option Nat
  pendingTimeouts : List Nat
  nextTimeoutId : Nat
deriving DecidableEq, Repr

-- playPurr(): audible only when enabled and a context exists.
def playPurr (s : SoundState) : List Sound :=
  if s.isEnabled ∧ s.audioContext then [Sound.purr] else []

-- stopAmbientPurr(): clearTimeout(purrInterval); purrInterval = null
def stopAmbientPurr (s : SoundState) : SoundState :=
  match s.purrInterval with
  | some id => { s with pendingTimeouts := s.pendingTimeouts.erase id, purrInterval := none }
  | none => s

-- startAmbientPurr(): no-op when already running, else schedule the
-- initial 2s timeout and remember its handle.
def startAmbientPurr (s : SoundState) : SoundState :=
  if s.purrInterval.isSome then s
  else
    let id := s.nextTimeoutId
    { s with
      pendingTimeouts := s.pendingTimeouts ++ [id]
      nextTimeoutId := id + 1
      purrInterval := some id }

/-- A scheduled timeout of the ambient chain firing: runs playRandomPurr():
plays a purr when enabled with a context, and unconditionally schedules the
next timeout.  A handle that is no longer pending (it was cleared) never
fires. -/
def ambientFire (s : SoundState) (id : Nat) : SoundState × List Sound :=
  if id ∈ s.pendingTimeouts then
    let s0 := { s with pendingTimeouts := s.pendingTimeouts.erase id }
    let sounds := if s0.isEnabled ∧ s0.audioContext then playPurr s0 else []
    let nid := s0.nextTimeoutId
    ({ s0 with
        pendingTimeouts := s0.pendingTimeouts ++ [nid]
        nextTimeoutId := nid + 1
        purrInterval := some nid }, sounds)
  else (s, [])

-- setEnabled(enabled): flip the flag; disabling also stops the ambient chain.
def setEnabled (s : SoundState) (enabled : Bool) : SoundState :=
  let s1 := { s with isEnabled := enabled }
  if enabled then s1 else stopAmbientPurr s1

-- setVolume(volume): clamp into [0, 1].
def setVolume (s : SoundState) (volume : ℚ) : SoundState :=
  { s with volume := max 0 (min 1 volume) }

-- ===== Concrete states used by the witnesses and scenarios =====

/-- All four window collaborators mounted: the normal page configuration. -/
def envAll : Env :=
  { catGuide := true, speechBubble := true, tourSpotlight := true, soundManager := true }

def freshStorage : Storage := { available := true, items := [] }

/-- A fresh load of the home page, before any tour activity. -/
def sysHome : Sys :=
  { currentStep := 0, isActive := false, isTyping := false, hasCompleted := false,
    tourSteps := [], pathname := "/", storage := freshStorage }

/-- The home tour just started, reveal already finished. -/
def sysStarted : Sys :=
  { currentStep := 0, isActive := true, isTyping := false, hasCompleted := false,
    tourSteps := homeTour, pathname := "/", storage := freshStorage }

/-- The home tour at step 0 with the reveal still in progress. -/
def sysTyping : Sys := { sysStarted with isTyping := true }

/-- The home tour at step 1 with the reveal still in progress. -/
def sysMid : Sys := { sysStarted with currentStep := 1, isTyping := true }

/-- The home tour at its last step (index 5 of 6). -/
def sysLast : Sys := { sysStarted with currentStep := 5 }

def firstHomeStep : TourStep :=
  { id := "welcome", target := none, animation := .waving,
    message := "Meow! I'm Neko, your guide on this homepage. Let me show you around!",
    welcomeMode := true, page := some "/" }

def lastHomeStep : TourStep :=
  { id := "complete", target := none, animation := .celebrating,
    message := "That's my tour! Click Next to meet Mochi on the About page!",
    welcomeMode := true, page := some "/", navigateTo := some "/about" }

/-- An enabled sound manager with one pending ambient timer. -/
def soundOn : SoundState :=
  { audioContext := true, isEnabled := true, volume := 1/2, purrInterval := some 1,
    pendingTimeouts := [1], nextTimeoutId := 2 }

-- ===== Helper lemmas =====

lemma find?_filter_ne (l : List (String × String)) {k k' : String} (h : k ≠ k') :
    (l.filter (fun kv => !(kv.1 == k))).find? (fun kv => kv.1 == k') =
      l.find? (fun kv => kv.1 == k') := by
  induction l with
  | nil => rfl
  | cons hd tl ih =>
    by_cases hk : hd.1 = k
    · have hk' : (hd.1 == k') = false := by
        simp [hk, beq_eq_false_iff_ne, h]
      have hkk' : (k == k') = false := by simp [beq_eq_false_iff_ne, h]
      simp [List.filter_cons, List.find?_cons, hk, hk', hkk', ih]
    · have hne : ¬ k' = k := fun e => h e.symm
      by_cases hk2 : hd.1 = k'
      · simp [List.filter_cons, List.find?_cons, hk, hk2, hne]
      · simp [List.filter_cons, List.find?_cons, hk, hk2, hne, ih]

lemma getItem_setItem_self (st : Storage) (k v : String) (hav : st.available = true) :
    (st.setItem k v).getItem k = some v := by
  simp [Storage.setItem, Storage.getItem, hav, List.find?_cons]

lemma getItem_setItem_ne (st : Storage) {k k' : String} (v : String) (h : k ≠ k') :
    (st.setItem k v).getItem k' = st.getItem k' := by
  by_cases hav : st.available
  · have hkk : (k == k') = false := by simp [beq_eq_false_iff_ne, h]
    simp [Storage.setItem, Storage.getItem, hav, List.find?_cons, hkk, find?_filter_ne _ h]
  · simp [Storage.setItem, Storage.getItem, hav]

lemma getItem_removeItem_self (st : Storage) (k : String) :
    (st.removeItem k).getItem k = none := by
  by_cases hav : st.available
  · simp only [Storage.removeItem, Storage.getItem, hav, if_true]
    rw [List.find?_eq_none.mpr]
    · rfl
    · intro x hx
      have := List.of_mem_filter hx
      simpa using this
  · simp [Storage.removeItem, Storage.getItem, hav]

lemma getItem_removeItem_ne (st : Storage) {k k' : String} (h : k ≠ k') :
    (st.removeItem k).getItem k' = st.getItem k' := by
  by_cases hav : st.available
  · simp [Storage.removeItem, Storage.getItem, hav, find?_filter_ne _ h]
  · simp [Storage.removeItem, Storage.getItem, hav]

lemma pageTours_mem (p : String) (steps : List TourStep) (h : pageTours p = some steps) :
    steps ∈ pageToursList.map Prod.snd := by
  unfold pageTours at h
  cases hfind : pageToursList.find? (fun kv => kv.1 == p) with
  | none => simp [hfind] at h
  | some kv =>
    simp [hfind] at h
    exact h ▸ List.mem_map_of_mem Prod.snd (List.mem_of_find?_eq_some hfind)

lemma pageToursList_snd_ne_nil : ∀ kv ∈ pageToursList, kv.2 ≠ [] := by decide

lemma getTourStepsForPage_ne_nil (page : String) : getTourStepsForPage page ≠ [] := by
  unfold getTourStepsForPage
  cases h : pageTours page with
  | none => decide
  | some steps =>
    have hm := pageTours_mem page steps h
    obtain ⟨kv, hkv, rfl⟩ := List.mem_map.mp hm
    exact pageToursList_snd_ne_nil kv hkv

lemma renderStep_spec (e : Env) (s : Sys) (h : s.currentStep < s.tourSteps.length) :
    ∃ s' effs, renderStep e s = some (s', effs) ∧
      s'.currentStep = s.currentStep ∧ s'.tourSteps = s.tourSteps ∧
      s'.isActive = s.isActive ∧ s'.hasCompleted = s.hasCompleted ∧
      s'.storage = s.storage ∧ s'.pathname = s.pathname ∧
      (∀ m, Effect.bubbleSkipTyping m ∉ effs) ∧
      (e.speechBubble = true →
        ∃ step, s.tourSteps.get? s.currentStep = some step ∧
          Effect.bubbleTypeMessage step.message TYPING_SPEED ∈ effs) := by
  have hstep : s.tourSteps.get? s.currentStep = some (s.tourSteps.get ⟨s.currentStep, h⟩) :=
    List.get?_eq_get h
  refine ⟨_, _, by rw [renderStep, hstep], ?_, ?_, ?_, ?_, ?_, ?_, ?_, ?_⟩
  · cases hb : e.speechBubble <;> simp [hb]
  · cases hb : e.speechBubble <;> simp [hb]
  · cases hb : e.speechBubble <;> simp [hb]
  · cases hb : e.speechBubble <;> simp [hb]
  · cases hb : e.speechBubble <;> simp [hb]
  · cases hb : e.speechBubble <;> simp [hb]
  · intro m
    simp only [List.mem_append]
    rintro (((h1 | h1) | h1) | h1) <;> revert h1 <;> split_ifs <;> simp
  · intro hb
    refine ⟨_, hstep, ?_⟩
    simp [hb]

lemma startTour_spec (e : Env) (s : Sys) :
    ∃ s' effs, startTour e s = some (s', effs) ∧ s'.currentStep = 0 ∧
      s'.isActive = true ∧ s'.hasCompleted = false ∧
      s'.tourSteps = getTourStepsForPage (getCurrentPage s.pathname) := by
  have h0 : (0 : Nat) < (getTourStepsForPage (getCurrentPage s.pathname)).length :=
    List.length_pos.mpr (getTourStepsForPage_ne_nil _)
  obtain ⟨s3, effs, hr, hc, hts, hia, hhc, -, -, -, -⟩ :=
    renderStep_spec e { loadTourForCurrentPage s with
      currentStep := 0, isActive := true, hasCompleted := false,
      storage := setTourActive (loadTourForCurrentPage s).storage true }
      (by simpa [loadTourForCurrentPage] using h0)
  have heq : startTour e s = some (s3,
      (if e.soundManager then [Effect.soundInit, Effect.playMeow, Effect.startAmbient] else []) ++
      (if e.catGuide then [Effect.catShow] else []) ++ effs) := by
    simp only [startTour]
    rw [hr]
  refine ⟨s3, _, heq, ?_, ?_, ?_, ?_⟩
  · simpa using hc
  · simpa using hia
  · simpa using hhc
  · simpa [loadTourForCurrentPage] using hts

lemma startAmbientPurr_isEnabled (s : SoundState) :
    (startAmbientPurr s).isEnabled = s.isEnabled := by
  unfold startAmbientPurr
  split <;> rfl

lemma pageTours_check :
    (pageToursList.all (fun kv =>
      (kv.2.getLast?.bind TourStep.navigateTo).all (fun t => (pageTours t).isSome))) = true := by
  decide

-- ===== Claims =====

/-- C1: advance() while Active, not Typing, at the last index of the current
page's script: when that last step declares `navigateTo`, nextStep persists
the cross-page-active flag (setTourActive true, so the flag reads back true)
and performs exactly one page navigation to that target — the state is
otherwise untouched, so complete() is not called; when the last step has no
`navigateTo`, nextStep is exactly completeTour. -/
theorem c1 (e : Env) (s : Sys) (step : TourStep)
    (hact : s.isActive = true) (htyp : s.isTyping = false)
    (hlast : s.currentStep = s.tourSteps.length - 1)
    (hstep : s.tourSteps.get? s.currentStep = some step)
    (hav : s.storage.available = true) :
    (∀ url, step.navigateTo = some url →
      nextStep e s = some ({ s with storage := setTourActive s.storage true },
        [Effect.navigate url]) ∧
      isTourActive (setTourActive s.storage true) = true) ∧
    (step.navigateTo = none → nextStep e s = some (completeTour e s)) := by
  obtain ⟨hidx, -⟩ := List.get?_eq_some.mp hstep
  have hguard : ¬ ((s.currentStep : Int) < (s.tourSteps.length : Int) - 1) := by
    rw [hlast]
    have h1 : 1 ≤ s.tourSteps.length := by omega
    rw [Nat.cast_sub h1]
    simp
  constructor
  · intro url hurl
    constructor
    · simp only [List.get?_eq_getElem?] at hstep
      simp [nextStep, hact, htyp, hguard, hstep, hurl]
    · simp [isTourActive, setTourActive, getItem_setItem_self _ _ _ hav]
  · intro hnone
    simp only [List.get?_eq_getElem?] at hstep
    simp [nextStep, hact, htyp, hguard, hstep, hnone]

theorem c1_witness :
    (sysLast.isActive = true ∧ sysLast.isTyping = false ∧
      sysLast.currentStep = sysLast.tourSteps.length - 1 ∧
      sysLast.tourSteps.get? sysLast.currentStep = some lastHomeStep ∧
      sysLast.storage.available = true) ∧
    ((∀ url, lastHomeStep.navigateTo = some url →
        nextStep envAll sysLast =
          some ({ sysLast with storage := setTourActive sysLast.storage true },
            [Effect.navigate url]) ∧
        isTourActive (setTourActive sysLast.storage true) = true) ∧
      (lastHomeStep.navigateTo = none →
        nextStep envAll sysLast = some (completeTour envAll sysLast))) :=
  ⟨⟨rfl, rfl, rfl, rfl, rfl⟩, c1 envAll sysLast lastHomeStep rfl rfl rfl rfl rfl⟩

/-- C2: disabling the audio engine clears the scheduled ambient purr timer
(purrInterval becomes null and the previously scheduled handle is no longer
pending, so the cancelled callback never fires), and a subsequent
startAmbientPurr() while disabled leaves the engine disabled and its timer
chain silent: a firing of any ambient timer emits no purr and keeps the
engine disabled (startAmbientPurr itself, by construction, emits no sound —
it only schedules). -/
theorem c2 (s : SoundState) (hnd : s.pendingTimeouts.Nodup) :
    ((setEnabled s false).purrInterval = none) ∧
    (∀ h, s.purrInterval = some h → h ∉ (setEnabled s false).pendingTimeouts) ∧
    ((startAmbientPurr (setEnabled s false)).isEnabled = false) ∧
    (∀ id, (ambientFire (startAmbientPurr (setEnabled s false)) id).2 = []) ∧
    (∀ id, (ambientFire (startAmbientPurr (setEnabled s false)) id).1.isEnabled = false) := by
  have hen : (setEnabled s false).isEnabled = false := by
    unfold setEnabled stopAmbientPurr
    cases hp : s.purrInterval <;> simp [hp]
  have hen2 : (startAmbientPurr (setEnabled s false)).isEnabled = false := by
    rw [startAmbientPurr_isEnabled, hen]
  refine ⟨?_, ?_, hen2, ?_, ?_⟩
  · unfold setEnabled stopAmbientPurr
    cases hp : s.purrInterval <;> simp [hp]
  · intro h hp
    unfold setEnabled stopAmbientPurr
    simp only [hp]
    simpa using hnd.not_mem_erase
  · intro id
    unfold ambientFire
    split
    · simp [playPurr, hen2]
    · rfl
  · intro id
    unfold ambientFire
    split
    · simpa using hen2
    · exact hen2

theorem c2_witness :
    (soundOn.pendingTimeouts.Nodup) ∧
    (((setEnabled soundOn false).purrInterval = none) ∧
      (∀ h, soundOn.purrInterval = some h → h ∉ (setEnabled soundOn false).pendingTimeouts) ∧
      ((startAmbientPurr (setEnabled soundOn false)).isEnabled = false) ∧
      (∀ id, (ambientFire (startAmbientPurr (setEnabled soundOn false)) id).2 = []) ∧
      (∀ id, (ambientFire (startAmbientPurr (setEnabled soundOn false)) id).1.isEnabled = false)) :=
  ⟨by decide, c2 soundOn (by decide)⟩

/-- C3: advance() while Active with a reveal in progress (the speech bubble is
mounted — the only way isTyping can be true) short-circuits: the result is
exactly the same state with Typing cleared plus one skipTyping call carrying
the step's full message — currentStepIndex is unchanged and no advancement
branch runs. -/
theorem c3 (e : Env) (s : Sys) (step : TourStep)
    (hact : s.isActive = true) (htyp : s.isTyping = true) (hsb : e.speechBubble = true)
    (hstep : s.tourSteps.get? s.currentStep = some step) :
    nextStep e s = some ({ s with isTyping := false }, [Effect.bubbleSkipTyping step.message]) := by
  simp only [List.get?_eq_getElem?] at hstep
  simp [nextStep, hact, htyp, hsb, hstep]

theorem c3_witness :
    (sysTyping.isActive = true ∧ sysTyping.isTyping = true ∧ envAll.speechBubble = true ∧
      sysTyping.tourSteps.get? sysTyping.currentStep = some firstHomeStep) ∧
    nextStep envAll sysTyping = some ({ sysTyping with isTyping := false },
      [Effect.bubbleSkipTyping firstHomeStep.message]) :=
  ⟨⟨rfl, rfl, rfl, rfl⟩, c3 envAll sysTyping firstHomeStep rfl rfl rfl rfl⟩

/-- C4: startTour() always succeeds, resets currentStepIndex to 0 and sets
isActive, from any prior state; and the concrete restart scenario
start; advance; advance; start on the home page (each advance after the
reveal finished) ends at index 0. -/
theorem c4 :
    (∀ (e : Env) (s : Sys), ∃ s' effs, startTour e s = some (s', effs) ∧
      s'.currentStep = 0 ∧ s'.isActive = true) ∧
    ((do
      let (s1, _) ← startTour envAll sysHome
      let (s2, _) ← nextStep envAll (typingDone s1)
      let (s3, _) ← nextStep envAll (typingDone s2)
      let (s4, _) ← startTour envAll (typingDone s3)
      pure s4.currentStep : Option Nat) = some 0) := by
  constructor
  · intro e s
    obtain ⟨s', effs, heq, hc, hia, -, -⟩ := startTour_spec e s
    exact ⟨s', effs, heq, hc, hia⟩
  · decide

/-- C5: completeTour() with all collaborators mounted and storage available:
isActive false, hasCompleted true, the completion flag persisted (reads back
true), the resume-step key and the cross-page-active key removed (the active
flag reads back false), and the emitted calls are exactly success cue,
overlay hide, bubble hide, mascot idle. -/
theorem c5 (e : Env) (s : Sys)
    (hcg : e.catGuide = true) (hsb : e.speechBubble = true)
    (hts : e.tourSpotlight = true) (hsm : e.soundManager = true)
    (hav : s.storage.available = true) :
    ((completeTour e s).1.isActive = false) ∧
    ((completeTour e s).1.hasCompleted = true) ∧
    (hasCompletedTour (completeTour e s).1.storage = true) ∧
    ((completeTour e s).1.storage.getItem TOUR_STEP_KEY = none) ∧
    ((completeTour e s).1.storage.getItem TOUR_ACTIVE_KEY = none) ∧
    (isTourActive (completeTour e s).1.storage = false) ∧
    ((completeTour e s).2 =
      [Effect.playSuccess, Effect.spotlightHide, Effect.bubbleHide,
       Effect.setAnimation Animation.idle]) := by
  have hkne1 : TOUR_ACTIVE_KEY ≠ STORAGE_KEY := by decide
  have hkne2 : TOUR_STEP_KEY ≠ STORAGE_KEY := by decide
  have hkne3 : TOUR_ACTIVE_KEY ≠ TOUR_STEP_KEY := by decide
  refine ⟨rfl, rfl, ?_, ?_, ?_, ?_, ?_⟩
  · simp only [completeTour, setTourActive, clearSavedTourStep, markTourCompleted,
      hasCompletedTour]
    rw [if_neg (by simp)]
    rw [getItem_removeItem_ne _ hkne1, getItem_removeItem_ne _ hkne2,
      getItem_setItem_self _ _ _ hav]
    rfl
  · simp only [completeTour, setTourActive, clearSavedTourStep, markTourCompleted]
    rw [if_neg (by simp)]
    rw [getItem_removeItem_ne _ hkne3, getItem_removeItem_self]
  · simp only [completeTour, setTourActive, clearSavedTourStep, markTourCompleted]
    rw [if_neg (by simp)]
    rw [getItem_removeItem_self]
  · simp only [completeTour, setTourActive, clearSavedTourStep, markTourCompleted,
      isTourActive]
    rw [if_neg (by simp)]
    rw [getItem_removeItem_self]
    rfl
  · simp [completeTour, hcg, hsb, hts, hsm]

theorem c5_witness :
    (envAll.catGuide = true ∧ envAll.speechBubble = true ∧ envAll.tourSpotlight = true ∧
      envAll.soundManager = true ∧ sysHome.storage.available = true) ∧
    (((completeTour envAll sysHome).1.isActive = false) ∧
      ((completeTour envAll sysHome).1.hasCompleted = true) ∧
      (hasCompletedTour (completeTour envAll sysHome).1.storage = true) ∧
      ((completeTour envAll sysHome).1.storage.getItem TOUR_STEP_KEY = none) ∧
      ((completeTour envAll sysHome).1.storage.getItem TOUR_ACTIVE_KEY = none) ∧
      (isTourActive (completeTour envAll sysHome).1.storage = false) ∧
      ((completeTour envAll sysHome).2 =
        [Effect.playSuccess, Effect.spotlightHide, Effect.bubbleHide,
         Effect.setAnimation Animation.idle])) :=
  ⟨⟨rfl, rfl, rfl, rfl, rfl⟩, c5 envAll sysHome rfl rfl rfl rfl rfl⟩

/-- C6: skipTour() is exactly clearing the cross-page-active flag followed by
completeTour(); afterwards the tour is inactive, completed, the persisted
active flag reads back false on any storage, and initTour()'s branch
decision on a later page load is never the auto-resume branch. -/
theorem c6 (e : Env) (s : Sys) :
    (skipTour e s = completeTour e { s with storage := setTourActive s.storage false }) ∧
    ((skipTour e s).1.isActive = false) ∧
    ((skipTour e s).1.hasCompleted = true) ∧
    (isTourActive (skipTour e s).1.storage = false) ∧
    (∀ u, initBranch (skipTour e s).1.storage u ≠ InitBranch.autoResume) := by
  have hfalse : isTourActive (skipTour e s).1.storage = false := by
    simp only [skipTour, completeTour, setTourActive, clearSavedTourStep, markTourCompleted,
      isTourActive]
    rw [if_neg (by simp)]
    rw [getItem_removeItem_self]
    rfl
  refine ⟨rfl, rfl, rfl, hfalse, ?_⟩
  intro u
  simp only [initBranch, hfalse]
  split_ifs <;> simp_all

/-- C7: for every page identifier, scriptFor returns a non-empty list (the
registered script or the home fallback), and for every registered script
whose last step has a `navigateTo`, that target has its own registered
script. -/
theorem c7 :
    (∀ page, getTourStepsForPage page ≠ []) ∧
    (∀ p steps t, pageTours p = some steps →
      steps.getLast?.bind TourStep.navigateTo = some t → (pageTours t).isSome = true) := by
  refine ⟨getTourStepsForPage_ne_nil, ?_⟩
  intro p steps t hp hlast
  have hm := pageTours_mem p steps hp
  obtain ⟨kv, hkv, rfl⟩ := List.mem_map.mp hm
  have := List.all_eq_true.mp pageTours_check kv hkv
  rw [hlast] at this
  simpa using this

/-- C8: with the current script loaded, non-empty, and the index in range,
each of start/advance/retreat runs without a runtime error and keeps the
index strictly below the (possibly reloaded) script length, skip leaves the
index and script untouched so the bound persists, retreat at index 0 is a
pure no-op, and retreat when not Active is a pure no-op. -/
theorem c8 (e : Env) (s : Sys) (hlen : s.currentStep < s.tourSteps.length) :
    (∃ s1 effs, startTour e s = some (s1, effs) ∧ s1.currentStep < s1.tourSteps.length) ∧
    (∃ s2 effs, nextStep e s = some (s2, effs) ∧ s2.currentStep < s2.tourSteps.length) ∧
    (∃ s3 effs, prevStep e s = some (s3, effs) ∧ s3.currentStep < s3.tourSteps.length) ∧
    ((skipTour e s).1.currentStep < (skipTour e s).1.tourSteps.length) ∧
    (s.currentStep = 0 → prevStep e s = some (s, [])) ∧
    (s.isActive = false → prevStep e s = some (s, [])) := by
  refine ⟨?_, ?_, ?_, hlen, ?_, ?_⟩
  · obtain ⟨s1, effs, heq, hc, -, -, hts⟩ := startTour_spec e s
    refine ⟨s1, effs, heq, ?_⟩
    rw [hc, hts]
    exact List.length_pos.mpr (getTourStepsForPage_ne_nil _)
  · by_cases hact : s.isActive
    on_goal 2 => exact ⟨s, [], by simp [nextStep, hact], hlen⟩
    by_cases htyp : s.isTyping = true ∧ e.speechBubble = true
    · obtain ⟨step, hstep⟩ : ∃ a, s.tourSteps.get? s.currentStep = some a :=
        ⟨_, List.get?_eq_get hlen⟩
      refine ⟨{ s with isTyping := false }, [Effect.bubbleSkipTyping step.message], ?_, hlen⟩
      simp only [List.get?_eq_getElem?] at hstep
      simp [nextStep, hact, htyp.1, htyp.2, hstep]
    · by_cases hguard : ((s.currentStep : Int) < (s.tourSteps.length : Int) - 1)
      · have h1 : s.currentStep + 1 < s.tourSteps.length := by omega
        obtain ⟨s', effs, hr, hc, hts, -, -, -, -, -, -⟩ :=
          renderStep_spec e { s with currentStep := s.currentStep + 1 } h1
        simp only [hact] at hr
        have heq : nextStep e s = some (s',
            (if e.soundManager ∧ (s.currentStep + 1) % 2 = 0 then [Effect.playMeow] else []) ++
            effs) := by
          simp [nextStep, hact, htyp, hguard, hr]
        refine ⟨s', _, heq, ?_⟩
        rw [hc, hts]; exact h1
      · obtain ⟨step, hstep⟩ : ∃ a, s.tourSteps.get? s.currentStep = some a :=
          ⟨_, List.get?_eq_get hlen⟩
        cases hnav : step.navigateTo with
        | some url =>
          refine ⟨{ s with storage := setTourActive s.storage true },
            [Effect.navigate url], ?_, hlen⟩
          simp only [List.get?_eq_getElem?] at hstep
          simp [nextStep, hact, htyp, hguard, hstep, hnav]
        | none =>
          refine ⟨(completeTour e s).1, (completeTour e s).2, ?_, hlen⟩
          simp only [List.get?_eq_getElem?] at hstep
          simp [nextStep, hact, htyp, hguard, hstep, hnav]
  · by_cases hact : s.isActive
    on_goal 2 => exact ⟨s, [], by simp [prevStep, hact], hlen⟩
    by_cases hpos : s.currentStep > 0
    · have h1 : s.currentStep - 1 < s.tourSteps.length := by omega
      obtain ⟨s', effs, hr, hc, hts, -, -, -, -, -, -⟩ :=
        renderStep_spec e { s with currentStep := s.currentStep - 1 } h1
      simp only [hact] at hr
      refine ⟨s', effs, by simp [prevStep, hact, hpos, hr], ?_⟩
      rw [hc, hts]; exact h1
    · exact ⟨s, [], by simp [prevStep, hact, hpos], hlen⟩
  · intro h0
    simp [prevStep, h0]
  · intro hact
    simp [prevStep, hact]

theorem c8_witness :
    (sysStarted.currentStep < sysStarted.tourSteps.length) ∧
    ((∃ s1 effs, startTour envAll sysStarted = some (s1, effs) ∧
        s1.currentStep < s1.tourSteps.length) ∧
      (∃ s2 effs, nextStep envAll sysStarted = some (s2, effs) ∧
        s2.currentStep < s2.tourSteps.length) ∧
      (∃ s3 effs, prevStep envAll sysStarted = some (s3, effs) ∧
        s3.currentStep < s3.tourSteps.length) ∧
      ((skipTour envAll sysStarted).1.currentStep <
        (skipTour envAll sysStarted).1.tourSteps.length) ∧
      (sysStarted.currentStep = 0 → prevStep envAll sysStarted = some (sysStarted, [])) ∧
      (sysStarted.isActive = false → prevStep envAll sysStarted = some (sysStarted, []))) :=
  ⟨by decide, c8 envAll sysStarted (by decide)⟩

/-- C9: retreat() while a reveal is in progress at a positive index simply
decrements the index and renders the previous step: no skipTyping call is
ever emitted (retreat has no typing-skip branch), and with the bubble
mounted the previous step's typeMessage is dispatched while the old reveal
is neither skipped nor cancelled. -/
theorem c9 (e : Env) (s : Sys)
    (hact : s.isActive = true) (_htyp : s.isTyping = true)
    (hpos : 0 < s.currentStep) (hlen : s.currentStep < s.tourSteps.length) :
    ∃ s' effs, prevStep e s = some (s', effs) ∧
      s'.currentStep = s.currentStep - 1 ∧
      (∀ m, Effect.bubbleSkipTyping m ∉ effs) ∧
      (e.speechBubble = true →
        ∃ st, s.tourSteps.get? (s.currentStep - 1) = some st ∧
          Effect.bubbleTypeMessage st.message TYPING_SPEED ∈ effs) := by
  have h1 : s.currentStep - 1 < s.tourSteps.length := by omega
  obtain ⟨s', effs, hr, hc, -, -, -, -, -, hskip, htm⟩ :=
    renderStep_spec e { s with currentStep := s.currentStep - 1 } h1
  simp only [hact] at hr
  refine ⟨s', effs, ?_, hc, hskip, htm⟩
  simp [prevStep, hact, hpos, hr]

theorem c9_witness :
    (sysMid.isActive = true ∧ sysMid.isTyping = true ∧
      0 < sysMid.currentStep ∧ sysMid.currentStep < sysMid.tourSteps.length) ∧
    (∃ s' effs, prevStep envAll sysMid = some (s', effs) ∧
      s'.currentStep = sysMid.currentStep - 1 ∧
      (∀ m, Effect.bubbleSkipTyping m ∉ effs) ∧
      (envAll.speechBubble = true →
        ∃ st, sysMid.tourSteps.get? (sysMid.currentStep - 1) = some st ∧
          Effect.bubbleTypeMessage st.message TYPING_SPEED ∈ effs)) :=
  ⟨⟨rfl, rfl, by decide, by decide⟩, c9 envAll sysMid rfl rfl (by decide) (by decide)⟩

/-- C10: clearTourParam on any URL keeps the pathname and empties the whole
query (every parameter, not only the tour marker) and the fragment — the
source passes only `url.pathname` to history.replaceState, which swaps the
visible URL without a page reload. -/
theorem c10 (u : Url) :
    (clearTourParam u).pathname = u.pathname ∧
    (clearTourParam u).search = [] ∧
    (clearTourParam u).fragment = none :=
  ⟨rfl, rfl, rfl⟩
